import Mathlib

/-!
Shallow embedding of the Rss_v2.2 hero animation engine
(src/components/react/Hero.jsx: the inline Hero variant and the
InteractiveNetwork component; src/hooks/useFallingLetters.js).

Numeric values are modelled over the rationals.  JavaScript decimal
literals are written as exact fractions (0.3 = 3/10, 2.4 = 12/5, ...).
The one place the code computes a square root (getDistance) is modelled
by carrying the squared distance: for a nonnegative threshold c,
Math.sqrt s <= c holds exactly when s <= c*c, so every comparison the
code makes against connectDistance is represented faithfully.
-/

namespace Rss

/-- A point of the network point cloud: `{x, y, radius, id}` in canvas
pixel space (createPoints in InteractiveNetwork).  Only `x` and `y`
take part in any computation the claims are about. -/
structure Point where
  x : ℚ
  y : ℚ
deriving DecidableEq, Repr

/-- Value of the getDistance helper.  `inf` models the JavaScript
`Infinity` returned when an argument is null or undefined; `sq v`
models the finite value `Math.sqrt v`, represented by its square `v`
(the radicand `dx*dx + dy*dy`). -/
inductive Dist where
  | sq (v : ℚ)
  | inf
deriving DecidableEq, Repr

/-- Embeds getDistance (InteractiveNetwork):
`if (!p1 || !p2) return Infinity;` then the Euclidean distance between
the two points.  A missing point is `none`. -/
def getDistance (p1 p2 : Option Point) : Dist :=
  match p1, p2 with
  | some p1, some p2 => .sq ((p1.x - p2.x) * (p1.x - p2.x) + (p1.y - p2.y) * (p1.y - p2.y))
  | _, _ => .inf

/-- The comparison `getDistance(p1, p2) <= c` as the code performs it.
For a finite distance `sq v` and a nonnegative threshold this is
`v <= c*c` (square roots are monotone); `Infinity <= c` is false. -/
def Dist.le (d : Dist) (c : ℚ) : Bool :=
  match d with
  | .sq v => decide (v ≤ c * c)
  | .inf => false

/-- The configuration surface of InteractiveNetwork (its props /
networkSettings).  Colors are tracked only by how many entries the
palette has; a concrete color is an index into `lineColors`. -/
structure NetworkSettings where
  numPoints : ℕ
  pointRadius : ℚ
  connectDistance : ℚ
  numLineColors : ℕ
  lineWidthStart : ℚ
  cometTailLength : ℚ
  lineAnimationDuration : ℚ
  explosionMaxRadiusFactor : ℚ
  explosionDuration : ℚ
  maxActiveLines : ℕ
deriving DecidableEq, Repr

/-- The settings the Hero page passes to InteractiveNetwork (they
coincide with the component defaults). -/
def heroSettings : NetworkSettings where
  numPoints := 800
  pointRadius := 3/2
  connectDistance := 500
  numLineColors := 4
  lineWidthStart := 5/2
  cometTailLength := 147/20
  lineAnimationDuration := 14/5
  explosionMaxRadiusFactor := 20
  explosionDuration := 9/10
  maxActiveLines := 20

/-- AnimatedLine (a comet).  `id` models JavaScript object identity:
each `new AnimatedLine` yields a fresh object, and the code compares
comets only by reference (`line !== this`). -/
structure AnimatedLine where
  id : ℕ
  p1 : Point
  p2 : Point
  headProgress : ℚ
  tailStartProgress : ℚ
  isVisible : Bool
  colorIdx : ℕ
deriving DecidableEq, Repr

/-- ExplosionEffect data as set up by its constructor:
`radius = pointRadius`, `opacity = 0.8`, position and color taken from
the completing comet. -/
structure ExplosionEffect where
  x : ℚ
  y : ℚ
  colorIdx : ℕ
  radius : ℚ
  opacity : ℚ
deriving DecidableEq, Repr

/-- `new ExplosionEffect(x, y, color)` before its tween has advanced. -/
def explosionEffectNew (st : NetworkSettings) (x y : ℚ) (colorIdx : ℕ) : ExplosionEffect where
  x := x
  y := y
  colorIdx := colorIdx
  radius := st.pointRadius
  opacity := 4/5

/-- The mutable state of one InteractiveNetwork instance: the React
refs (`activeLinesRef`, `activeExplosionsRef`), the Frame Clock
subscription (`gsap.ticker.add(updateNetwork)`), the periodic spawn
timer (`spawnInterval`), and the tweens the entity constructors
registered with the global tween scheduler.  `lineTweens` holds the
comets whose head-progress timeline is still registered;
`explosionTweens` likewise for explosion grow/fade tweens.  gsap owns
these registrations globally; they are NOT stored in any ref the
component clears. -/
structure EngineState where
  tickerSubscribed : Bool
  spawnTimerAlive : Bool
  activeLines : List AnimatedLine
  activeExplosions : List ExplosionEffect
  lineTweens : List AnimatedLine
  explosionTweens : List ExplosionEffect
deriving DecidableEq, Repr

/-- The onComplete callback of a comet head-progress tween
(AnimatedLine constructor): mark the comet invisible, create one
ExplosionEffect at the target point `(p2.x, p2.y)` (whose constructor
registers its own tween), push it onto `activeExplosionsRef`, and
re-filter `activeLinesRef` dropping this comet (reference inequality
modelled as id inequality).  Returns the mutated comet and the new
engine state. -/
def lineOnComplete (st : NetworkSettings) (l : AnimatedLine) (s : EngineState) :
    AnimatedLine × EngineState :=
  let explosion := explosionEffectNew st l.p2.x l.p2.y l.colorIdx
  ({ l with isVisible := false },
   { s with
      activeExplosions := s.activeExplosions ++ [explosion]
      explosionTweens := s.explosionTweens ++ [explosion]
      activeLines := s.activeLines.filter (fun line => line.id ≠ l.id) })

/-- The cleanup function returned by the InteractiveNetwork effect:
removes the resize listener, removes `updateNetwork` from the gsap
ticker, kills the spawn interval, and empties both active collections.
It does not touch the tweens the AnimatedLine / ExplosionEffect
constructors registered with the global scheduler: `lineTweens` and
`explosionTweens` are carried over unchanged. -/
def cleanup (s : EngineState) : EngineState :=
  { s with
      tickerSubscribed := false
      spawnTimerAlive := false
      activeLines := []
      activeExplosions := [] }

/-- Advance the global tween scheduler until the next registered comet
head-progress tween completes; gsap then fires that tween onComplete
against the current refs.  With no registered tween this is a no-op. -/
def tweenSchedulerAdvance (st : NetworkSettings) (s : EngineState) : EngineState :=
  match s.lineTweens with
  | [] => s
  | l :: rest => (lineOnComplete st l { s with lineTweens := rest }).2

/-- Source of randomness: a stream of naturals and a cursor.  One call
of `Math.floor(Math.random() * n)` is one `draw n`: it consumes the
cursor position and yields an index below `n` (every sequence of
in-range indices is representable). -/
structure Rng where
  stream : ℕ → ℕ
  pos : ℕ

/-- Draw one random index below `n` and advance the cursor. -/
def Rng.draw (r : Rng) (n : ℕ) : ℕ × Rng :=
  (r.stream r.pos % n, { r with pos := r.pos + 1 })

/-- The attempt budget hard-coded in spawnRandomLine:
`const maxAttempts = 50`. -/
def maxAttempts : ℕ := 50

/-- The distinctness retry loop of spawnRandomLine:
`while (p1Index === p2Index && attempts < maxAttempts) { p2Index = draw; attempts++ }`.
`fuel` is the remaining budget `maxAttempts - attempts`; the result is
the final `p2Index` and the advanced randomness. -/
def dedupLoop (len p1 p2 : ℕ) (fuel : ℕ) (r : Rng) : ℕ × Rng :=
  match fuel with
  | 0 => (p2, r)
  | Nat.succ fuel =>
    if p1 = p2 then
      let d := r.draw len
      dedupLoop len p1 d.1 fuel d.2
    else (p2, r)

/-- Result of the distance retry loop: the final pair of indices, the
advanced randomness, and the final value of the `attempts` counter. -/
structure DistSearch where
  p1 : ℕ
  p2 : ℕ
  r : Rng
  attempts : ℕ

/-- The distance retry loop of spawnRandomLine:
`while (getDistance(points[p1Index], points[p2Index]) > connectDistance && attempts < maxAttempts)`
redraw both indices, re-run the inner distinctness loop, give up
(`attempts = maxAttempts; break`) if the pair is still equal, else
`attempts++` and re-test.  `fuel` is `maxAttempts - attempts`, and the
`attempts` argument carries the counter itself.  Out-of-range index
access yields `none`, hence distance `Infinity`, exactly as in
JavaScript. -/
def distLoop (pts : List Point) (cd : ℚ) (len : ℕ) (p1 p2 fuel attempts : ℕ) (r : Rng) :
    DistSearch :=
  match fuel with
  | 0 => ⟨p1, p2, r, attempts⟩
  | Nat.succ fuel =>
    if (getDistance (pts.get? p1) (pts.get? p2)).le cd then ⟨p1, p2, r, attempts⟩
    else
      let d1 := r.draw len
      let d2 := d1.2.draw len
      let dd := dedupLoop len d1.1 d2.1 maxAttempts d2.2
      if d1.1 = dd.1 then ⟨d1.1, dd.1, dd.2, maxAttempts⟩
      else distLoop pts cd len d1.1 dd.1 fuel (attempts + 1) dd.2

/-- spawnRandomLine.  Guard: missing canvas, fewer than two points, or
`activeLines.length >= maxActiveLines` is an immediate no-op.  Then
draw an initial pair, run the distinctness loop, bail out if the pair
is still equal, run the distance loop, and finally create and push a
new AnimatedLine only if the surviving pair is distinct and within
`connectDistance`.  The AnimatedLine constructor draws the comet color
from the palette.  `nid` is the identity of the freshly allocated
object.  Returns the new active-comet list and the advanced
randomness. -/
def spawnRandomLine (st : NetworkSettings) (canvasPresent : Bool) (pts : List Point)
    (activeLines : List AnimatedLine) (r : Rng) (nid : ℕ) : List AnimatedLine × Rng :=
  if ¬canvasPresent ∨ pts.length < 2 ∨ st.maxActiveLines ≤ activeLines.length then
    (activeLines, r)
  else
    let len := pts.length
    let d1 := r.draw len
    let d2 := d1.2.draw len
    let dd := dedupLoop len d1.1 d2.1 maxAttempts d2.2
    if d1.1 = dd.1 then (activeLines, dd.2)
    else
      let ds := distLoop pts st.connectDistance len d1.1 dd.1 maxAttempts 0 dd.2
      match pts.get? ds.p1, pts.get? ds.p2 with
      | some a, some b =>
        if ds.p1 ≠ ds.p2 ∧ (getDistance (some a) (some b)).le st.connectDistance = true then
          let dc := ds.r.draw st.numLineColors
          (activeLines ++ [⟨nid, a, b, 0, 0, true, dc.1⟩], dc.2)
        else (activeLines, ds.r)
      | _, _ => (activeLines, ds.r)

/-- One glyph span of the decomposed title.  `isSpace` records whether
the span carries the `letter--space` class, assigned at wrap time iff
the character is a space. -/
structure LetterUnit where
  ch : Char
  isSpace : Bool
deriving DecidableEq, Repr

/-- The title element: its text content and its existing `.letter`
spans (`[]` when the title has not been decomposed yet — then
`querySelectorAll` finds nothing). -/
structure TitleEl where
  text : List Char
  units : List LetterUnit
deriving DecidableEq, Repr

/-- The wrapping pass of useFallingLetters: each character becomes one
span, spaces getting the extra `letter--space` class. -/
def wrapLetters (text : List Char) : List LetterUnit :=
  text.map (fun c => ⟨c, c == ' '⟩)

/-- Decompose (useFallingLetters, step 1): if no `.letter` span exists
yet, wrap every character of the text (the spans reproduce the text, so
the text content is preserved); otherwise reuse the existing spans.
Either way the letters handed to the animation are the spans without
the `letter--space` class (`.letter:not(.letter--space)`), in document
order.  Returns the updated element and those letters. -/
def decompose (el : TitleEl) : TitleEl × List LetterUnit :=
  if el.units.length = 0 then
    let wrapped := wrapLetters el.text
    ({ el with units := wrapped }, wrapped.filter (fun u => !u.isSpace))
  else
    (el, el.units.filter (fun u => !u.isSpace))

/-- The per-letter random fall parameters generated once inside the
useFallingLetters effect (`letterParams`). -/
structure LetterParams where
  randomY : ℚ
  randomX : ℚ
  randomRotation : ℚ
  randomDelayFactor : ℚ
deriving DecidableEq, Repr

/-- The target state a scroll update tweens one letter to. -/
structure LetterTarget where
  y : ℚ
  x : ℚ
  rotation : ℚ
  opacity : ℚ
deriving DecidableEq, Repr

/-- The fall-progress formula of the useFallingLetters onUpdate:
`Math.max(0, (progress - delayFactor * 0.3) / 2.4)` then
`Math.min(1, _)`. -/
def letterFallProgress (progress delayFactor : ℚ) : ℚ :=
  min 1 (max 0 ((progress - delayFactor * (3/10)) / (12/5)))

/-- The per-letter tween target of the useFallingLetters onUpdate. -/
def onUpdateTarget (p : LetterParams) (progress : ℚ) : LetterTarget :=
  let f := letterFallProgress progress p.randomDelayFactor
  { y := f * p.randomY
    x := f * p.randomX
    rotation := f * p.randomRotation
    opacity := 1 - f }

/-- The options of useFallingLetters that feed the random parameters. -/
structure FallOptions where
  fallDistance : ℚ
  maxHorizontalDrift : ℚ
  maxRotation : ℚ
deriving DecidableEq, Repr

/-- The once-per-mount generation of `letterParams` inside the
useFallingLetters effect: four `Math.random()` values per letter.
`rng i` is the i-th value the generator produced at mount. -/
def mountLetterParams (o : FallOptions) (n : ℕ) (rng : ℕ → ℚ) : List LetterParams :=
  (List.range n).map fun i =>
    { randomY := o.fallDistance + rng (4 * i) * 200
      randomX := (rng (4 * i + 1) - 1/2) * o.maxHorizontalDrift
      randomRotation := (rng (4 * i + 2) - 1/2) * o.maxRotation
      randomDelayFactor := rng (4 * i + 3) * (3/5) }

/-- One run of the useFallingLetters ScrollTrigger onUpdate over all
letters.  `updateRng` is the stream of `Math.random()` values that
WOULD be available during this run; the hook code never samples it
(all randomness was consumed at mount into `params`). -/
def hookScrollUpdate (params : List LetterParams) (progress : ℚ) (_updateRng : ℕ → ℚ) :
    List LetterTarget :=
  params.map (fun p => onUpdateTarget p progress)

/-- The tween target the inline Hero variant (Hero.jsx, first
component) computes for letter `i` in its ScrollTrigger onUpdate.
`rand` is the fresh `Math.random()` value this run samples for this
letter:
`yDist = window.innerHeight * 1.5 + (i * 100) % 300`,
`xDist = (Math.random() - 0.5) * 300 * prog`,
`rot = (i % 2 === 0 ? 1 : -1) * 45 * prog`,
target `{y: prog * yDist, x: xDist, rotation: rot, opacity: 1 - prog}`. -/
def heroLetterTarget (innerHeight : ℚ) (i : ℕ) (prog : ℚ) (rand : ℚ) : LetterTarget :=
  let yDist := innerHeight * (3/2) + (((i * 100) % 300 : ℕ) : ℚ)
  { y := prog * yDist
    x := (rand - 1/2) * 300 * prog
    rotation := (if i % 2 = 0 then 1 else -1) * 45 * prog
    opacity := 1 - prog }

/-- What the useFallingLetters effect body did by the time it returned:
which letters got the initial `gsap.set {y: 100, opacity: 0}`, whether
the entrance tween was started and on which letters, whether a
ScrollTrigger was created, the final value of `lettersRef`, and the
(possibly re-wrapped) title element. -/
structure FallingLettersRun where
  initialSet : List LetterUnit
  entranceTween : Option (List LetterUnit)
  scrollTrigger : Bool
  lettersRefValue : List LetterUnit
  titleAfter : Option TitleEl
deriving DecidableEq, Repr

/-- The useFallingLetters effect body: early return when either ref is
missing; otherwise decompose the title, store the letters in
`lettersRef`, early return when no (non-space) letter exists, else set
the initial state, start the entrance tween, and create the
ScrollTrigger. -/
def useFallingLettersMount (titleEl : Option TitleEl) (containerPresent : Bool) :
    FallingLettersRun :=
  match titleEl, containerPresent with
  | some el, true =>
    let d := decompose el
    if d.2.length = 0 then
      { initialSet := []
        entranceTween := none
        scrollTrigger := false
        lettersRefValue := d.2
        titleAfter := some d.1 }
    else
      { initialSet := d.2
        entranceTween := some d.2
        scrollTrigger := true
        lettersRefValue := d.2
        titleAfter := some d.1 }
  | _, _ =>
    { initialSet := []
      entranceTween := none
      scrollTrigger := false
      lettersRefValue := []
      titleAfter := titleEl }

/-- One particle of the inline Hero variant Explosion: velocity, size
and remaining life.  The constructor never initializes `x`/`y`, so the
positions are NaN from the first update on and play no part in the
removal logic; they are omitted here. -/
structure HeroParticle where
  vx : ℚ
  vy : ℚ
  life : ℚ
  size : ℚ
deriving DecidableEq, Repr

/-- Explosion of the inline Hero variant: a bag of particles; the
explosion is finished when `particles` is empty. -/
structure HeroExplosion where
  particles : List HeroParticle
deriving DecidableEq, Repr

/-- One update step of a Hero particle: `p.life -= 0.04` (the position
updates touch only the uninitialized coordinates). -/
def HeroParticle.update (p : HeroParticle) : HeroParticle :=
  { p with life := p.life - 1/25 }

/-- `Explosion.update` of the inline Hero variant: age every particle,
then keep only those with `life > 0` (this filter builds a fresh
array). -/
def HeroExplosion.update (e : HeroExplosion) : HeroExplosion :=
  { e with particles := (e.particles.map HeroParticle.update).filter (fun p => decide (0 < p.life)) }

/-- The explosion segment of the Hero animate() frame pass:
`explosions.forEach((e, i) => { e.update(); e.draw(); if (e.particles.length === 0) explosions.splice(i, 1); })`.
JavaScript forEach caches the length before the first call and then
visits indices `0 .. len-1` of the live array, skipping indices that no
longer exist; `splice(i, 1)` removes in place and shifts later
elements left.  `k` is the loop index, `fuel` the remaining cached
range `len - k`.  `e.draw()` immediately follows `e.update()` inside
the callback, so an explosion is drawn in this pass exactly when it is
updated in this pass. -/
def heroExplosionsForEach (arr : List HeroExplosion) (k fuel : ℕ) : List HeroExplosion :=
  match fuel with
  | 0 => arr
  | Nat.succ fuel =>
    match arr.get? k with
    | none => heroExplosionsForEach arr (k + 1) fuel
    | some e =>
      let upd := e.update
      let arr1 := arr.set k upd
      if upd.particles.length = 0 then
        heroExplosionsForEach (arr1.eraseIdx k) (k + 1) fuel
      else
        heroExplosionsForEach arr1 (k + 1) fuel

/-- The whole explosion segment of one animate() frame. -/
def heroExplosionPass (arr : List HeroExplosion) : List HeroExplosion :=
  heroExplosionsForEach arr 0 arr.length

/-! Concrete instances used by closed theorems and witnesses. -/

/-- A comet halfway along its path, its head-progress tween still
registered with the scheduler. -/
def inflightComet : AnimatedLine where
  id := 0
  p1 := ⟨0, 0⟩
  p2 := ⟨3, 4⟩
  headProgress := 1/2
  tailStartProgress := 0
  isVisible := true
  colorIdx := 0

/-- A running engine with one in-flight comet and nothing else. -/
def engineWithInflightComet : EngineState where
  tickerSubscribed := true
  spawnTimerAlive := true
  activeLines := [inflightComet]
  activeExplosions := []
  lineTweens := [inflightComet]
  explosionTweens := []

/-- Two points at distance five. -/
def spawnPoints : List Point := [⟨0, 0⟩, ⟨3, 4⟩]

/-- A deterministic randomness stream: the identity. -/
def rngNat : Rng := ⟨fun n => n, 0⟩

/-- An active-comet list already at the Hero `maxActiveLines` cap. -/
def fullLines : List AnimatedLine := List.replicate 20 inflightComet

/-- The title of the Hero page. -/
def heroTitle : TitleEl := ⟨("RUNSWIFT STUDIO").toList, []⟩

/-! Theorems. -/

/-- Claim C1: after teardown no engine callback may fire, so advancing
the Frame Clock or the Tween Scheduler must mutate neither the canvas
nor the active collections.  The code violates this: cleanup empties
both collections and stops ticker and spawn timer, but never cancels
the in-flight comet head-progress tweens, so when the scheduler later
completes one, its onComplete pushes a fresh ExplosionEffect into the
active-explosion collection — the collection is mutated after
teardown. -/
theorem cleanup_does_not_cancel_tweens :
    (cleanup engineWithInflightComet).activeLines = [] ∧
    (cleanup engineWithInflightComet).activeExplosions = [] ∧
    (cleanup engineWithInflightComet).lineTweens = [inflightComet] ∧
    (tweenSchedulerAdvance heroSettings (cleanup engineWithInflightComet)).activeExplosions ≠ [] := by
  refine ⟨rfl, rfl, rfl, ?_⟩
  simp [tweenSchedulerAdvance, cleanup, engineWithInflightComet, lineOnComplete]

/-- Claim C8 counterexample and code evaluation: the inline Hero
variant removes finished explosions by `splice` inside `forEach`.
With two explosions where the first finishes this frame, the splice
shifts the live second explosion into the vacated slot and the loop
never visits it: the pass returns it untouched, although one update
step would have aged its particle from life 1 to 24/25.  A still-live
entity is thus skipped (neither updated nor drawn) in a removal
pass. -/
theorem heroExplosionPass_skips_live_explosion :
    heroExplosionPass [⟨[⟨0, 0, 1/25, 1⟩]⟩, ⟨[⟨0, 0, 1, 1⟩]⟩] = [⟨[⟨0, 0, 1, 1⟩]⟩] ∧
    HeroExplosion.update ⟨[⟨0, 0, 1, 1⟩]⟩ = ⟨[⟨0, 0, 24/25, 1⟩]⟩ ∧
    HeroExplosion.update ⟨[⟨0, 0, 1, 1⟩]⟩ ≠ ⟨[⟨0, 0, 1, 1⟩]⟩ := by
  refine ⟨?_, ?_, ?_⟩ <;>
    simp [heroExplosionPass, heroExplosionsForEach, HeroExplosion.update, HeroParticle.update] <;>
    norm_num

/-- Claim C2 counterexample: in the inline Hero variant the onUpdate
handler samples `Math.random()` afresh for the horizontal drift, so
two scroll-update runs that see the same progress (here one half) with
different random draws apply different targets to letter zero — the
trajectory is not a deterministic function of scroll progress. -/
theorem heroLetterTarget_rerandomizes :
    heroLetterTarget 800 0 (1/2) 0 ≠ heroLetterTarget 800 0 (1/2) (1/2) := by
  simp [heroLetterTarget, LetterTarget.mk.injEq]

/-- Claim C2, amended: in the useFallingLetters hook the random fall
parameters are generated once at mount and the scroll-update targets
are a function of the stored parameters and the progress alone (the
randomness available during the update run is never sampled), so two
runs at the same progress agree; in the inline Hero variant only the
y, rotation and opacity targets are deterministic in the progress —
the horizontal drift is re-randomized on every update. -/
theorem scrollUpdate_determinism_amended :
    (∀ params progress r r', hookScrollUpdate params progress r = hookScrollUpdate params progress r') ∧
    (∀ o n mountRng progress r r',
      hookScrollUpdate (mountLetterParams o n mountRng) progress r
        = hookScrollUpdate (mountLetterParams o n mountRng) progress r') ∧
    (∀ h i progress r r',
      (heroLetterTarget h i progress r).y = (heroLetterTarget h i progress r').y ∧
      (heroLetterTarget h i progress r).rotation = (heroLetterTarget h i progress r').rotation ∧
      (heroLetterTarget h i progress r).opacity = (heroLetterTarget h i progress r').opacity) :=
  ⟨fun _ _ _ _ => rfl, fun _ _ _ _ _ _ => rfl, fun _ _ _ _ _ => ⟨rfl, rfl, rfl⟩⟩

/-- Claim C5: for every scroll progress input and every letter, the
fall progress is exactly the clamp of
`(progress - delayFactor * 0.3) / 2.4` to the unit interval — hence it
always lies in `[0, 1]` — and the applied target is
`{y: f * randomY, x: f * randomX, rotation: f * randomRotation,
opacity: 1 - f}` with the per-letter random parameters. -/
theorem letterFallProgress_clamped (p : LetterParams) (progress : ℚ) :
    letterFallProgress progress p.randomDelayFactor
      = max 0 (min 1 ((progress - p.randomDelayFactor * (3/10)) / (12/5))) ∧
    0 ≤ letterFallProgress progress p.randomDelayFactor ∧
    letterFallProgress progress p.randomDelayFactor ≤ 1 ∧
    onUpdateTarget p progress =
      { y := letterFallProgress progress p.randomDelayFactor * p.randomY
        x := letterFallProgress progress p.randomDelayFactor * p.randomX
        rotation := letterFallProgress progress p.randomDelayFactor * p.randomRotation
        opacity := 1 - letterFallProgress progress p.randomDelayFactor } := by
  refine ⟨?_, ?_, ?_, rfl⟩
  · unfold letterFallProgress
    rw [min_max_distrib_left, min_eq_right zero_le_one]
  · exact le_min zero_le_one (le_max_left 0 _)
  · exact min_le_left 1 _

/-- Claim C9: getDistance is total, returns Infinity whenever either
argument is missing, and Infinity is never within any connect
distance, so the spawn search can never treat a missing point as close
to anything. -/
theorem getDistance_missing_point (p q : Option Point) (c : ℚ)
    (h : p = none ∨ q = none) :
    getDistance p q = Dist.inf ∧ (getDistance p q).le c = false := by
  rcases h with h | h
  · subst h; cases q <;> exact ⟨rfl, rfl⟩
  · subst h; cases p <;> exact ⟨rfl, rfl⟩

/-- Witness for claim C9 at a concrete missing first argument. -/
theorem getDistance_missing_point_witness :
    getDistance none (some ⟨0, 0⟩) = Dist.inf ∧
    (getDistance none (some ⟨0, 0⟩)).le 500 = false :=
  getDistance_missing_point none (some ⟨0, 0⟩) 500 (Or.inl rfl)

/-- Claim C7: decompose is idempotent — applied to a title whose glyph
spans already exist it reuses them, so decomposing twice yields the
same element and the same letter units (no duplicates); space
characters carry the space marker exactly when the character is a
space, and the returned letter units contain no space. -/
theorem decompose_idempotent (el : TitleEl) :
    decompose (decompose el).1 = decompose el ∧
    (∀ u ∈ (decompose el).2, u.isSpace = false) ∧
    (el.units.length = 0 → (decompose el).1.units = wrapLetters el.text) ∧
    (∀ u ∈ wrapLetters el.text, u.isSpace = (u.ch == ' ')) := by
  refine ⟨?_, ?_, ?_, ?_⟩
  · by_cases h : el.units.length = 0
    · simp only [decompose, h, if_true]
      by_cases h2 : (wrapLetters el.text).length = 0
      · simp [h2]
      · simp [h2]
    · simp [decompose, h]
  · intro u hu
    by_cases h : el.units.length = 0 <;>
      simp only [decompose, h, if_true, if_false, reduceIte] at hu <;>
      simpa using (List.mem_filter.1 hu).2
  · intro h
    simp [decompose, h]
  · intro u hu
    simp only [wrapLetters, List.mem_map] at hu
    obtain ⟨c, _, rfl⟩ := hu
    rfl

/-- Witness for claim C7 at the Hero title. -/
theorem decompose_idempotent_witness :
    decompose (decompose heroTitle).1 = decompose heroTitle ∧
    heroTitle.units.length = 0 ∧
    (decompose heroTitle).1.units = wrapLetters heroTitle.text :=
  ⟨(decompose_idempotent heroTitle).1, rfl,
   (decompose_idempotent heroTitle).2.2.1 rfl⟩

/-- Claim C10: when either element handle is missing at mount, or the
decomposed title has zero non-space letters, the useFallingLetters
effect performs no action: no initial letter state is set, no entrance
tween starts, and no ScrollTrigger is created. -/
theorem useFallingLettersMount_noop (titleEl : Option TitleEl) (c : Bool)
    (h : titleEl = none ∨ c = false ∨ ∃ el, titleEl = some el ∧ (decompose el).2 = []) :
    (useFallingLettersMount titleEl c).initialSet = [] ∧
    (useFallingLettersMount titleEl c).entranceTween = none ∧
    (useFallingLettersMount titleEl c).scrollTrigger = false := by
  rcases h with h | h | ⟨el, rfl, h2⟩
  · subst h; cases c <;> exact ⟨rfl, rfl, rfl⟩
  · subst h; cases titleEl <;> exact ⟨rfl, rfl, rfl⟩
  · cases c
    · exact ⟨rfl, rfl, rfl⟩
    · simp [useFallingLettersMount, h2]

/-- Witness for claim C10: a title consisting of two spaces decomposes
to zero non-space letters, and the mount does nothing. -/
theorem useFallingLettersMount_noop_witness :
    (useFallingLettersMount (some ⟨[' ', ' '], []⟩) true).initialSet = [] ∧
    (useFallingLettersMount (some ⟨[' ', ' '], []⟩) true).entranceTween = none ∧
    (useFallingLettersMount (some ⟨[' ', ' '], []⟩) true).scrollTrigger = false :=
  useFallingLettersMount_noop (some ⟨[' ', ' '], []⟩) true
    (Or.inr (Or.inr ⟨⟨[' ', ' '], []⟩, rfl, by decide⟩))

/-- Claim C4: the onComplete of a comet head-progress tween marks the
comet invisible, appends exactly one ExplosionEffect located at the
comet target point `(p2.x, p2.y)` to the active-explosion collection,
and removes the comet from the active-comet collection while keeping
every other comet. -/
theorem lineOnComplete_spec (st : NetworkSettings) (l : AnimatedLine) (s : EngineState) :
    (lineOnComplete st l s).1.isVisible = false ∧
    (lineOnComplete st l s).2.activeExplosions
      = s.activeExplosions ++ [explosionEffectNew st l.p2.x l.p2.y l.colorIdx] ∧
    l ∉ (lineOnComplete st l s).2.activeLines ∧
    (∀ m ∈ s.activeLines, m.id ≠ l.id → m ∈ (lineOnComplete st l s).2.activeLines) := by
  refine ⟨rfl, rfl, ?_, ?_⟩
  · intro hl
    have h2 := (List.mem_filter.1 hl).2
    simp at h2
  · intro m hm hne
    exact List.mem_filter.2 ⟨hm, by simpa using hne⟩

/-- Witness for claim C4 at a concrete comet and engine state. -/
theorem lineOnComplete_spec_witness :
    (lineOnComplete heroSettings inflightComet engineWithInflightComet).1.isVisible = false ∧
    (lineOnComplete heroSettings inflightComet engineWithInflightComet).2.activeExplosions
      = engineWithInflightComet.activeExplosions
        ++ [explosionEffectNew heroSettings inflightComet.p2.x inflightComet.p2.y inflightComet.colorIdx] ∧
    inflightComet ∉ (lineOnComplete heroSettings inflightComet engineWithInflightComet).2.activeLines :=
  ⟨(lineOnComplete_spec heroSettings inflightComet engineWithInflightComet).1,
   (lineOnComplete_spec heroSettings inflightComet engineWithInflightComet).2.1,
   (lineOnComplete_spec heroSettings inflightComet engineWithInflightComet).2.2.1⟩

/-- Helper: one spawnRandomLine call either leaves the active-comet
list untouched or — only when the list was below the cap — appends one
comet whose endpoints passed the connectDistance test. -/
theorem spawnRandomLine_cases (st : NetworkSettings) (canvas : Bool) (pts : List Point)
    (ls : List AnimatedLine) (r : Rng) (nid : ℕ) :
    (spawnRandomLine st canvas pts ls r nid).1 = ls ∨
    (ls.length < st.maxActiveLines ∧ ∃ l, (spawnRandomLine st canvas pts ls r nid).1 = ls ++ [l] ∧
      (getDistance (some l.p1) (some l.p2)).le st.connectDistance = true) := by
  simp only [spawnRandomLine]
  split
  · exact Or.inl rfl
  · rename_i hguard
    push_neg at hguard
    split
    · exact Or.inl rfl
    · split
      · rename_i a b heq1 heq2
        split
        · rename_i hcond
          exact Or.inr ⟨hguard.2.2, _, rfl, hcond.2⟩
        · exact Or.inl rfl
      · exact Or.inl rfl

/-- Helper: the no-op guard of spawnRandomLine fires as soon as the
active-comet count reaches the cap. -/
theorem spawnRandomLine_at_cap (st : NetworkSettings) (canvas : Bool) (pts : List Point)
    (ls : List AnimatedLine) (r : Rng) (nid : ℕ)
    (h : st.maxActiveLines ≤ ls.length) :
    spawnRandomLine st canvas pts ls r nid = (ls, r) := by
  simp only [spawnRandomLine]
  rw [if_pos (Or.inr (Or.inr h))]

/-- Claim C3: spawnRandomLine never creates a comet whose endpoints
exceed connectDistance (every comet in the result either was already
active or satisfies the distance test), never pushes the active-comet
count beyond maxActiveLines, and is a complete no-op when the count
already equals maxActiveLines. -/
theorem spawnComet_invariants (st : NetworkSettings) (canvas : Bool) (pts : List Point)
    (ls : List AnimatedLine) (r : Rng) (nid : ℕ) :
    (ls.length = st.maxActiveLines → spawnRandomLine st canvas pts ls r nid = (ls, r)) ∧
    (ls.length ≤ st.maxActiveLines →
      (spawnRandomLine st canvas pts ls r nid).1.length ≤ st.maxActiveLines) ∧
    (∀ l ∈ (spawnRandomLine st canvas pts ls r nid).1,
      l ∈ ls ∨ (getDistance (some l.p1) (some l.p2)).le st.connectDistance = true) := by
  refine ⟨?_, ?_, ?_⟩
  · intro h
    exact spawnRandomLine_at_cap st canvas pts ls r nid h.ge
  · intro h
    rcases spawnRandomLine_cases st canvas pts ls r nid with hc | ⟨hlt, l, hl, _⟩
    · rw [hc]; exact h
    · rw [hl]; simp; omega
  · intro l hl
    rcases spawnRandomLine_cases st canvas pts ls r nid with hc | ⟨hlt, l0, heq, hdist⟩
    · rw [hc] at hl; exact Or.inl hl
    · rw [heq] at hl
      rcases List.mem_append.1 hl with h | h
      · exact Or.inl h
      · rw [List.mem_singleton.1 h]; exact Or.inr hdist

/-- Witness for claim C3: at the cap the call is a no-op, and from the
empty list the result respects the cap. -/
theorem spawnComet_invariants_witness :
    spawnRandomLine heroSettings true spawnPoints fullLines rngNat 7 = (fullLines, rngNat) ∧
    (spawnRandomLine heroSettings true spawnPoints [] rngNat 7).1.length
      ≤ heroSettings.maxActiveLines :=
  ⟨(spawnComet_invariants heroSettings true spawnPoints fullLines rngNat 7).1 (by decide),
   (spawnComet_invariants heroSettings true spawnPoints [] rngNat 7).2.1 (by decide)⟩

/-- Helper: the distinctness retry loop consumes at most `fuel` random
draws. -/
theorem dedupLoop_pos_le (len p1 p2 fuel : ℕ) (r : Rng) :
    (dedupLoop len p1 p2 fuel r).2.pos ≤ r.pos + fuel := by
  induction fuel generalizing p2 r with
  | zero => exact Nat.le_add_right r.pos 0
  | succ fuel ih =>
    simp only [dedupLoop]
    split
    · have h := ih (r.draw len).1 (r.draw len).2
      have hp : (r.draw len).2.pos = r.pos + 1 := rfl
      omega
    · show r.pos ≤ r.pos + (fuel + 1)
      omega

/-- Helper: the distance retry loop consumes at most `52 * fuel`
random draws (two pair draws plus at most fifty distinctness redraws
per iteration). -/
theorem distLoop_pos_le (pts : List Point) (cd : ℚ) (len p1 p2 fuel attempts : ℕ) (r : Rng) :
    (distLoop pts cd len p1 p2 fuel attempts r).r.pos ≤ r.pos + 52 * fuel := by
  induction fuel generalizing p1 p2 attempts r with
  | zero => exact Nat.le_add_right r.pos 0
  | succ fuel ih =>
    simp only [distLoop]
    split
    · show r.pos ≤ r.pos + 52 * (fuel + 1)
      omega
    · have hdd := dedupLoop_pos_le len (r.draw len).1 ((r.draw len).2.draw len).1
        maxAttempts ((r.draw len).2.draw len).2
      have hp2 : ((r.draw len).2.draw len).2.pos = r.pos + 2 := rfl
      have hm : maxAttempts = 50 := rfl
      split
      · show (dedupLoop len (r.draw len).1 ((r.draw len).2.draw len).1 maxAttempts
          ((r.draw len).2.draw len).2).2.pos ≤ r.pos + 52 * (fuel + 1)
        omega
      · have hrec := ih (r.draw len).1
          (dedupLoop len (r.draw len).1 ((r.draw len).2.draw len).1 maxAttempts
            ((r.draw len).2.draw len).2).1
          (attempts + 1)
          (dedupLoop len (r.draw len).1 ((r.draw len).2.draw len).1 maxAttempts
            ((r.draw len).2.draw len).2).2
        omega

/-- Helper: the `attempts` counter of the distance retry loop never
exceeds the budget: starting from `attempts + fuel ≤ maxAttempts`, the
final counter is at most `maxAttempts` (the give-up branch pins it to
exactly `maxAttempts`). -/
theorem distLoop_attempts_le (pts : List Point) (cd : ℚ) (len p1 p2 fuel attempts : ℕ)
    (r : Rng) (h : attempts + fuel ≤ maxAttempts) :
    (distLoop pts cd len p1 p2 fuel attempts r).attempts ≤ maxAttempts := by
  induction fuel generalizing p1 p2 attempts r with
  | zero =>
    show attempts ≤ maxAttempts
    omega
  | succ fuel ih =>
    simp only [distLoop]
    split
    · show attempts ≤ maxAttempts
      omega
    · split
      · exact Nat.le_refl maxAttempts
      · exact ih _ _ (attempts + 1) _ (by omega)

/-- Helper: one spawnRandomLine call consumes at most 2653 random
draws in total: the initial pair (2), the distinctness loop (at most
50), the distance loop (at most 50 iterations of at most 52 draws),
and the comet color (1). -/
theorem spawnRandomLine_pos_le (st : NetworkSettings) (canvas : Bool) (pts : List Point)
    (ls : List AnimatedLine) (r : Rng) (nid : ℕ) :
    (spawnRandomLine st canvas pts ls r nid).2.pos ≤ r.pos + 2653 := by
  simp only [spawnRandomLine]
  split
  · show r.pos ≤ r.pos + 2653
    omega
  · have hdd := dedupLoop_pos_le pts.length (r.draw pts.length).1
      ((r.draw pts.length).2.draw pts.length).1 maxAttempts ((r.draw pts.length).2.draw pts.length).2
    have hp2 : ((r.draw pts.length).2.draw pts.length).2.pos = r.pos + 2 := rfl
    have hm : maxAttempts = 50 := rfl
    have hds := distLoop_pos_le pts st.connectDistance pts.length (r.draw pts.length).1
      (dedupLoop pts.length (r.draw pts.length).1 ((r.draw pts.length).2.draw pts.length).1
        maxAttempts ((r.draw pts.length).2.draw pts.length).2).1 maxAttempts 0
      (dedupLoop pts.length (r.draw pts.length).1 ((r.draw pts.length).2.draw pts.length).1
        maxAttempts ((r.draw pts.length).2.draw pts.length).2).2
    split
    · show (dedupLoop pts.length (r.draw pts.length).1 ((r.draw pts.length).2.draw pts.length).1
        maxAttempts ((r.draw pts.length).2.draw pts.length).2).2.pos ≤ r.pos + 2653
      omega
    · split
      · split
        · show (distLoop pts st.connectDistance pts.length (r.draw pts.length).1
            (dedupLoop pts.length (r.draw pts.length).1 ((r.draw pts.length).2.draw pts.length).1
              maxAttempts ((r.draw pts.length).2.draw pts.length).2).1 maxAttempts 0
            (dedupLoop pts.length (r.draw pts.length).1 ((r.draw pts.length).2.draw pts.length).1
              maxAttempts ((r.draw pts.length).2.draw pts.length).2).2).r.pos + 1 ≤ r.pos + 2653
          omega
        · show (distLoop pts st.connectDistance pts.length (r.draw pts.length).1
            (dedupLoop pts.length (r.draw pts.length).1 ((r.draw pts.length).2.draw pts.length).1
              maxAttempts ((r.draw pts.length).2.draw pts.length).2).1 maxAttempts 0
            (dedupLoop pts.length (r.draw pts.length).1 ((r.draw pts.length).2.draw pts.length).1
              maxAttempts ((r.draw pts.length).2.draw pts.length).2).2).r.pos ≤ r.pos + 2653
          omega
      · show (distLoop pts st.connectDistance pts.length (r.draw pts.length).1
          (dedupLoop pts.length (r.draw pts.length).1 ((r.draw pts.length).2.draw pts.length).1
            maxAttempts ((r.draw pts.length).2.draw pts.length).2).1 maxAttempts 0
          (dedupLoop pts.length (r.draw pts.length).1 ((r.draw pts.length).2.draw pts.length).1
            maxAttempts ((r.draw pts.length).2.draw pts.length).2).2).r.pos ≤ r.pos + 2653
        omega

/-- Claim C6: the spawn-pair search is bounded and silent.  The
distance retry loop performs at most maxAttempts (fifty) attempts,
each trying one fresh random point-pair; a whole spawnRandomLine call
consumes at most 2653 random draws (so the search always terminates
within its budget); and when no qualifying pair is found the call
leaves the active-comet list unchanged — it returns without creating a
comet and without raising an error (the embedding is a total
function). -/
theorem spawnComet_attempt_budget (st : NetworkSettings) (canvas : Bool) (pts : List Point)
    (ls : List AnimatedLine) (r : Rng) (nid : ℕ) :
    (∀ p1 p2 r0, (distLoop pts st.connectDistance pts.length p1 p2 maxAttempts 0 r0).attempts
      ≤ maxAttempts) ∧
    (spawnRandomLine st canvas pts ls r nid).2.pos ≤ r.pos + 2653 ∧
    ((spawnRandomLine st canvas pts ls r nid).1 = ls ∨
      ∃ l, (spawnRandomLine st canvas pts ls r nid).1 = ls ++ [l] ∧
        (getDistance (some l.p1) (some l.p2)).le st.connectDistance = true) := by
  refine ⟨?_, spawnRandomLine_pos_le st canvas pts ls r nid, ?_⟩
  · intro p1 p2 r0
    exact distLoop_attempts_le pts st.connectDistance pts.length p1 p2 maxAttempts 0 r0
      (by simp [maxAttempts])
  · rcases spawnRandomLine_cases st canvas pts ls r nid with hc | ⟨_, l, hl, hdist⟩
    · exact Or.inl hc
    · exact Or.inr ⟨l, hl, hdist⟩

end Rss
